import Mathlib

/-!
Shallow embedding of the compressvideo repository (Go) for specification
checking.  Conventions used throughout:

* Go `float64` values are modelled as exact rationals (`ℚ`); the decimal
  literals of the source become the corresponding exact rationals.
* Go `int`/`int64` are modelled as `Int` (no overflow occurs in the ranges
  the claims quantify over); conversions `int64(x)` from a float are
  modelled by `goInt64`, truncation toward zero.
* Go `map[string]string` is modelled as an association list
  `List (String × String)`; assignment `m[k] = v` is `mapSet`, a read
  `m[k]` is `(m.lookup k).getD ""`, and the two-result read `v, ok := m[k]`
  is `m.lookup k`.
* External library calls (`strconv.ParseFloat`, JSON (un)marshalling,
  `os.Stat`, the md5 fingerprint, the SQLite store) are modelled as
  explicit function parameters, so that theorems quantify over their
  behaviour; everything written by the repository itself is translated
  directly from the source.
-/

namespace CompressVideo

/-- Truncation toward zero, the semantics of Go's `int64(x)`/`int(x)`
conversion from a float, modelled on `ℚ`. -/
def goInt64 (x : ℚ) : Int := if 0 ≤ x then ⌊x⌋ else ⌈x⌉

/-- Go `strconv.Atoi`: the value result, which is `0` whenever the string is
not an optional sign followed by a nonempty digit string (the source
discards the error result). -/
def digitsVal (cs : List Char) : Nat :=
  cs.foldl (fun acc c => acc * 10 + (c.toNat - 48)) 0

/-- Whether a character list is a nonempty string of decimal digits. -/
def isDigits (cs : List Char) : Bool :=
  !cs.isEmpty && cs.all (fun c => c.isDigit)

/-- Go `strconv.Atoi`, as used by the source with the error ignored. -/
def goAtoi (s : String) : Int :=
  match s.data with
  | [] => 0
  | '-' :: rest => if isDigits rest then -(digitsVal rest : Int) else 0
  | '+' :: rest => if isDigits rest then (digitsVal rest : Int) else 0
  | cs => if isDigits cs then (digitsVal cs : Int) else 0

/-- Association-list model of a Go `map[string]string`. -/
abbrev Settings := List (String × String)

/-- Go map assignment `m[k] = v`: replace the binding in place, or append. -/
def mapSet : Settings → String → String → Settings
  | [], k, v => [(k, v)]
  | (k', v') :: rest, k, v =>
      if k' = k then (k, v) :: rest else (k', v') :: mapSet rest k v

/-- `analyzer.ContentType` (content_analyzer.go). -/
inductive ContentType
  | unknown
  | animation
  | screencast
  | gaming
  | liveAction
  | sportsAction
  | documentary
deriving DecidableEq, Repr

/-- `analyzer.MotionComplexity` (content_analyzer.go). -/
inductive MotionComplexity
  | low
  | medium
  | high
  | veryHigh
deriving DecidableEq, Repr

/-- `ffmpeg.VideoStreamInfo` (pkg/ffmpeg/video.go), the fields the claims
touch.  The source spells the bitrate field `BitRate`; the first copy of the
analyzer refers to it as `Bitrate`. -/
structure VideoStreamInfo where
  codec : String
  width : Int
  height : Int
  fps : ℚ
  bitRate : Int
  isHDR : Bool
deriving DecidableEq, Repr

/-- `ffmpeg.AudioStreamInfo` (pkg/ffmpeg/video.go), the fields the claims
touch. -/
structure AudioStreamInfo where
  codec : String
  bitRate : Int
deriving DecidableEq, Repr

/-- `ffmpeg.VideoFile` (pkg/ffmpeg/video.go), the fields the claims touch. -/
structure VideoFile where
  path : String
  duration : ℚ
  videoInfo : VideoStreamInfo
  audioInfo : List AudioStreamInfo
deriving DecidableEq, Repr

/-- `analyzer.VideoAnalysis` (content_analyzer.go), the fields the claims
touch. -/
structure VideoAnalysis where
  videoFile : VideoFile
  contentType : ContentType
  motionComplexity : MotionComplexity
  recommendedCodec : String
  optimalBitrate : Int
  isHDContent : Bool
  isUHDContent : Bool
deriving DecidableEq, Repr

/-! ## Compression engine: strategy selection (`CompressVideo`, part_007) -/

/-- The two compression strategies of `VideoCompressor.CompressVideo`. -/
inductive CompressionPath
  | parallel
  | single
deriving DecidableEq, Repr

/-- The strategy choice of `VideoCompressor.CompressVideo` (part_007
lines 94-103): `useParallelCompression := analysis.VideoFile.Duration > 60 &&
analysis.ContentType != analyzer.ContentTypeScreencast`. -/
def chooseCompressionPath (analysis : VideoAnalysis) : CompressionPath :=
  if analysis.videoFile.duration > 60 ∧ analysis.contentType ≠ ContentType.screencast then
    CompressionPath.parallel
  else
    CompressionPath.single

/-! ## Compression engine: preset adjustment (`adjustSettingsForPreset`) -/

/-- The CRF step of the thorough branch of `adjustSettingsForPreset`
(part_007 lines 163-168): decrement the parsed CRF by 2 only when it is
strictly greater than 20. -/
def adjustThoroughCRF (s1 : Settings) : Settings :=
  match s1.lookup "crf" with
  | some crf =>
      if goAtoi crf > 20 then mapSet s1 "crf" (toString (goAtoi crf - 2)) else s1
  | none => s1

/-- `VideoCompressor.adjustSettingsForPreset` (part_007 lines 132-172).
`concurrentWorkers` stands for `vc.ConcurrentWorkers`. -/
def adjustSettingsForPreset (concurrentWorkers : Int) (settings : Settings)
    (preset : String) : Settings :=
  let currentPreset := (settings.lookup "preset").getD ""
  if preset = "fast" then
    let s1 :=
      if currentPreset = "veryslow" then mapSet settings "preset" "medium"
      else if currentPreset = "slower" ∨ currentPreset = "slow" then
        mapSet settings "preset" "fast"
      else if currentPreset = "medium" then mapSet settings "preset" "veryfast"
      else mapSet settings "preset" "ultrafast"
    mapSet s1 "threads" (toString concurrentWorkers)
  else if preset = "thorough" then
    adjustThoroughCRF
      (if currentPreset = "ultrafast" ∨ currentPreset = "veryfast" then
        mapSet settings "preset" "medium"
      else if currentPreset = "fast" ∨ currentPreset = "medium" then
        mapSet settings "preset" "slow"
      else mapSet settings "preset" "veryslow")
  else settings

/-! ## Compression engine: progress parsing and throttling -/

/-- A parsed `time=HH:MM:SS.ms` token from the encoder's error stream:
`hours`/`minutes` are what `strconv.Atoi` produced for the first two parts,
`seconds` what `strconv.ParseFloat` produced for the truncated seconds part. -/
structure TimeToken where
  hours : Nat
  minutes : Nat
  seconds : ℚ

/-- `currentTime := float64(hours*3600) + float64(minutes*60) + seconds`. -/
def tokenSeconds (t : TimeToken) : ℚ :=
  (t.hours : ℚ) * 3600 + (t.minutes : ℚ) * 60 + t.seconds

/-- The percent computed for one token: `int64((currentTime/totalDuration)*100)`
capped at 100 (part_007 lines 260-263, and identically in ffmpeg.go). -/
def ffmpegPercent (totalDuration : ℚ) (t : TimeToken) : Int :=
  if goInt64 (tokenSeconds t / totalDuration * 100) > 100 then 100
  else goInt64 (tokenSeconds t / totalDuration * 100)

/-- The sequence of percents delivered to the sink by the monitor loop of
`compressVideoSingle` (part_007 lines 258-270): report when
`percentComplete != lastProgressReported`; `lastProgressReported` starts
at 0. -/
def singleReports (totalDuration : ℚ) : List TimeToken → Int → List Int
  | [], _ => []
  | t :: ts, last =>
    if totalDuration > 0 then
      if ffmpegPercent totalDuration t ≠ last then
        ffmpegPercent totalDuration t ::
          singleReports totalDuration ts (ffmpegPercent totalDuration t)
      else singleReports totalDuration ts last
    else singleReports totalDuration ts last

/-- The sequence of percents delivered by the monitor loop of
`FFmpeg.Execute` (ffmpeg.go lines 488-500): report when
`percentComplete > lastProgress || percentComplete >= 100`, guarded by
`currentTime > 0 && videoInfo.Duration > 0`; `lastProgress` starts at 0.
The loop of `compressSegment` (part_007 lines 547-550) uses the same
condition with only the duration guard. -/
def executeReports (totalDuration : ℚ) : List TimeToken → Int → List Int
  | [], _ => []
  | t :: ts, last =>
    if tokenSeconds t > 0 ∧ totalDuration > 0 then
      if ffmpegPercent totalDuration t > last ∨ ffmpegPercent totalDuration t ≥ 100 then
        ffmpegPercent totalDuration t ::
          executeReports totalDuration ts (ffmpegPercent totalDuration t)
      else executeReports totalDuration ts last
    else executeReports totalDuration ts last

/-! ## Compression engine: segment progress encoding (part_007) -/

/-- `segmentProgressTracker.reportProgress` (part_007 lines 783-788):
`combinedProgress := (spt.segmentID << 16) | progress`. -/
def reportProgressEncode (segmentID progressVal : Nat) : Nat :=
  (segmentID <<< 16) ||| progressVal

/-- The aggregator's decoding of the segment id (part_007 line 338):
`segmentID := progressUpdate >> 16`. -/
def aggregatorSegmentID (progressUpdate : Nat) : Nat :=
  progressUpdate >>> 16

/-- The aggregator's decoding of the progress value (part_007 line 339):
`progressValue := progressUpdate & 0xFFFF`. -/
def aggregatorProgressValue (progressUpdate : Nat) : Nat :=
  progressUpdate &&& 0xFFFF

/-! ## Compression engine: frame-quality heuristic (`EstimateFrameQuality`) -/

/-- The codec/CRF heuristic at the core of `EstimateFrameQuality`
(part_007 lines 745-769): the raw quality per codec and the final clamp
to the range 0..100. -/
def frameQualityOf (codec : String) (crf : ℚ) : ℚ :=
  let quality : ℚ :=
    if codec = "libx264" then 100 - crf * 1.96
    else if codec = "libx265" then 100 - crf * 1.76
    else if codec = "libvpx-vp9" then 100 - crf * 1.58
    else 0
  if quality < 0 then 0 else if quality > 100 then 100 else quality

/-- `VideoCompressor.EstimateFrameQuality` (part_007 lines 733-770).
`parseFloat` models `strconv.ParseFloat` (an external library call):
`none` stands for a parse error, in which case the default CRF 23 is
kept. -/
def EstimateFrameQuality (parseFloat : String → Option ℚ) (settings : Settings) : ℚ :=
  let codec := (settings.lookup "codec").getD ""
  let crf : ℚ :=
    match settings.lookup "crf" with
    | some crfStr =>
        match parseFloat crfStr with
        | some parsedCRF => parsedCRF
        | none => 23
    | none => 23
  frameQualityOf codec crf

/-! ## Content analyzer (pkg/analyzer/content_analyzer.go)

The source file contains two concatenated copies of the analyzer package.
Definitions from the first copy (lines 1-605) carry the suffix `_v1`,
definitions from the second copy (lines 606-1258) the suffix `_v2`;
functions that are textually identical in both copies appear once without
a suffix. -/

/-- `calculateOptimalBitrate` (identical in both copies: lines 311-377 and
917-983).  The motion and codec multipliers default to 1.0 exactly as in the
source's switch statements. -/
def calculateOptimalBitrate (videoFile : VideoFile) (contentType : ContentType)
    (motionComplexity : MotionComplexity) (recommendedCodec : String) : Int :=
  let pixelCount : ℚ := ((videoFile.videoInfo.width * videoFile.videoInfo.height : Int) : ℚ)
  let baseBitrate : ℚ :=
    match contentType with
    | ContentType.screencast => pixelCount * videoFile.videoInfo.fps * 0.0001
    | ContentType.animation => pixelCount * videoFile.videoInfo.fps * 0.00015
    | ContentType.gaming => pixelCount * videoFile.videoInfo.fps * 0.0003
    | ContentType.sportsAction => pixelCount * videoFile.videoInfo.fps * 0.00035
    | _ => pixelCount * videoFile.videoInfo.fps * 0.00025
  let motionFactor : ℚ :=
    match motionComplexity with
    | MotionComplexity.low => 0.7
    | MotionComplexity.medium => 1
    | MotionComplexity.high => 1.3
    | MotionComplexity.veryHigh => 1.6
  let codecFactor : ℚ :=
    if recommendedCodec = "h264" then 1
    else if recommendedCodec = "hevc" then 0.6
    else if recommendedCodec = "vp9" then 0.7
    else if recommendedCodec = "av1" then 0.5
    else 1
  let adjustedBitrate := baseBitrate * motionFactor * codecFactor
  let adjustedBitrate :=
    if adjustedBitrate < 500000 then (500000 : ℚ)
    else if adjustedBitrate > 15000000 then 15000000
    else adjustedBitrate
  goInt64 adjustedBitrate

/-- `estimateCompressionPotential`, first copy (lines 380-414).  The
`optimalBitrate` argument stands for `analysis.OptimalBitrate` and the
bitrate read is `videoFile.VideoInfo.Bitrate`. -/
def estimateCompressionPotential_v1 (videoFile : VideoFile) (contentType : ContentType)
    (optimalBitrate : Int) : Int :=
  if videoFile.videoInfo.bitRate ≤ 0 then
    match contentType with
    | ContentType.screencast => 80
    | ContentType.animation => 70
    | ContentType.gaming => 50
    | ContentType.sportsAction => 40
    | _ => 50
  else
    let potentialSavings : ℚ :=
      (1 - 1 / ((videoFile.videoInfo.bitRate : ℚ) / (optimalBitrate : ℚ))) * 100
    if potentialSavings < 0 then 10
    else if potentialSavings > 90 then 90
    else goInt64 potentialSavings

/-- `estimateCompressionPotential`, second copy (lines 986-1012), which
keys the static estimate on the resolution class and clamps to 0..95. -/
def estimateCompressionPotential_v2 (videoFile : VideoFile) (isUHDContent isHDContent : Bool)
    (optimalBitrate : Int) : Int :=
  if videoFile.videoInfo.bitRate ≤ 0 then
    if isUHDContent then 50
    else if isHDContent then 60
    else 65
  else
    let potential : Int :=
      goInt64 ((1 - 1 / ((videoFile.videoInfo.bitRate : ℚ) / (optimalBitrate : ℚ))) * 100)
    if potential < 0 then 0
    else if potential > 95 then 95
    else potential

/-- Modelled from the claim's words, for comparison with the code: static
estimate per content type when the source bitrate is unknown; otherwise
`round((1 - optimal/source) * 100)` clamped to 0..95, except that
`optimal > source` returns 10. -/
def estimateCompressionPotential_claim (videoFile : VideoFile) (contentType : ContentType)
    (optimalBitrate : Int) : Int :=
  if videoFile.videoInfo.bitRate ≤ 0 then
    match contentType with
    | ContentType.screencast => 80
    | ContentType.animation => 70
    | ContentType.gaming => 50
    | ContentType.sportsAction => 40
    | _ => 50
  else if optimalBitrate > videoFile.videoInfo.bitRate then 10
  else
    let r : Int := round ((1 - (optimalBitrate : ℚ) / (videoFile.videoInfo.bitRate : ℚ)) * 100)
    if r < 0 then 0 else if r > 95 then 95 else r

/-- `getTuneParameter` (first copy, lines 592-605). -/
def getTuneParameter (contentType : ContentType) : String :=
  match contentType with
  | ContentType.animation => "animation"
  | ContentType.screencast => "stillimage"
  | ContentType.gaming => "grain"
  | ContentType.sportsAction => "zerolatency"
  | _ => "film"

/-- The content-type CRF delta of the first copy's `GetCompressionSettings`
(`contentAdjustment`, identical in its h264 and hevc arms). -/
def contentAdjustment_v1 (contentType : ContentType) : Int :=
  match contentType with
  | ContentType.screencast => 3
  | ContentType.animation => 1
  | ContentType.gaming => -1
  | ContentType.sportsAction => -2
  | _ => 0

/-- The h264 CRF of the first copy: base 23, quality delta, content delta,
clamped to 18..28 (lines 444-470). -/
def crfH264_v1 (contentType : ContentType) (quality : Int) : Int :=
  let crf := 23 + (3 - quality) * 3 + contentAdjustment_v1 contentType
  if crf < 18 then 18 else if crf > 28 then 28 else crf

/-- The hevc CRF of the first copy: base 28, clamped to 20..32
(lines 487-513). -/
def crfHevc_v1 (contentType : ContentType) (quality : Int) : Int :=
  let crf := 28 + (3 - quality) * 3 + contentAdjustment_v1 contentType
  if crf < 20 then 20 else if crf > 32 then 32 else crf

/-- The vp9 CRF of the first copy: base 31, no content delta, clamped to
15..35 (lines 539-552). -/
def crfVp9_v1 (quality : Int) : Int :=
  let crf := 31 + (3 - quality) * 3
  if crf < 15 then 15 else if crf > 35 then 35 else crf

/-- The common tail of the first copy's `GetCompressionSettings`
(lines 567-586): thread count and audio policy. -/
def commonTail_v1 (s : Settings) (analysis : VideoAnalysis) : Settings :=
  let s := mapSet s "threads" "0"
  match analysis.videoFile.audioInfo with
  | [] => mapSet s "audio_codec" "copy"
  | a0 :: _ =>
    if a0.codec = "aac" ∨ a0.codec = "opus" then mapSet s "audio_codec" "copy"
    else mapSet (mapSet s "audio_codec" "aac") "audio_bitrate" "128k"

/-- `GetCompressionSettings`, first copy (lines 427-589). -/
def GetCompressionSettings_v1 (analysis : VideoAnalysis) (quality : Int) : Settings :=
  let s0 : Settings := mapSet [] "input" analysis.videoFile.path
  if analysis.recommendedCodec = "h264" then
    let s1 := mapSet s0 "codec" "libx264"
    let s2 := mapSet s1 "preset"
      ((["veryslow", "slower", "medium", "fast", "ultrafast"].getD (quality - 1).toNat ""))
    let s3 := mapSet s2 "crf" (toString (crfH264_v1 analysis.contentType quality))
    let s4 := mapSet s3 "profile" "high"
    let s5 := mapSet s4 "level" "4.1"
    let s6 := mapSet s5 "tune" (getTuneParameter analysis.contentType)
    commonTail_v1 s6 analysis
  else if analysis.recommendedCodec = "hevc" then
    let s1 := mapSet s0 "codec" "libx265"
    let s2 := mapSet s1 "preset"
      ((["veryslow", "slow", "medium", "fast", "ultrafast"].getD (quality - 1).toNat ""))
    let s3 := mapSet s2 "crf" (toString (crfHevc_v1 analysis.contentType quality))
    let s4 := mapSet s3 "x265-params" "profile=main"
    let s5 :=
      if analysis.videoFile.videoInfo.isHDR then mapSet s4 "pix_fmt" "yuv420p10le" else s4
    commonTail_v1 s5 analysis
  else if analysis.recommendedCodec = "vp9" then
    let s1 := mapSet s0 "codec" "libvpx-vp9"
    let targetBitrate := Int.tdiv analysis.optimalBitrate 1000
    let targetBitrate :=
      if quality = 1 then goInt64 ((targetBitrate : ℚ) * 0.7)
      else if quality = 5 then goInt64 ((targetBitrate : ℚ) * 1.3)
      else targetBitrate
    let s2 := mapSet s1 "bitrate" (toString targetBitrate)
    let s3 := mapSet s2 "crf" (toString (crfVp9_v1 quality))
    let s4 := mapSet s3 "quality" "good"
    let s5 := mapSet s4 "speed" (toString (6 - quality))
    let s6 := mapSet s5 "cpu-used" (toString (6 - quality))
    let s7 :=
      if analysis.videoFile.videoInfo.isHDR then mapSet s6 "pix_fmt" "yuv420p10le" else s6
    commonTail_v1 s7 analysis
  else commonTail_v1 s0 analysis

/-- `selectCodec`, second copy (lines 1058-1072). -/
def selectCodec (contentType : ContentType) : String :=
  match contentType with
  | ContentType.screencast => "libx265"
  | ContentType.animation => "libx265"
  | _ => "libx264"

/-- The numeric value computed by `calculateCRF`, second copy
(lines 1075-1114): base per content type, motion delta, quality delta,
clamped to 18..32 for every codec. -/
def calculateCRFNum_v2 (contentType : ContentType) (motionComplexity : MotionComplexity)
    (qualityLevel : Int) : Int :=
  let baseCRF : Int :=
    match contentType with
    | ContentType.screencast => 28
    | ContentType.animation => 26
    | ContentType.gaming => 23
    | ContentType.liveAction => 20
    | ContentType.documentary => 20
    | _ => 23
  let baseCRF :=
    if motionComplexity = MotionComplexity.high then baseCRF - 2
    else if motionComplexity = MotionComplexity.low then baseCRF + 2
    else baseCRF
  let finalCRF := baseCRF + (3 - qualityLevel) * 2
  if finalCRF < 18 then 18 else if finalCRF > 32 then 32 else finalCRF

/-- `selectPreset`, second copy (lines 1117-1139). -/
def selectPreset_v2 (qualityLevel : Int) (motionComplexity : MotionComplexity) : String :=
  if qualityLevel = 1 then
    if motionComplexity = MotionComplexity.high then "veryslow" else "slower"
  else if qualityLevel = 2 then "slow"
  else if qualityLevel = 3 then "medium"
  else if qualityLevel = 4 then "fast"
  else if qualityLevel = 5 then "ultrafast"
  else "medium"

/-- `addCodecSpecificSettings`, second copy (lines 1142-1179). -/
def addCodecSpecificSettings (s : Settings) (analysis : VideoAnalysis) : Settings :=
  let codec := (s.lookup "codec").getD ""
  let s :=
    if codec = "libx265" then
      let s := mapSet s "profile" "main"
      if analysis.contentType = ContentType.screencast then
        mapSet (mapSet s "tune" "zerolatency") "x265-params" "bframes=0"
      else s
    else s
  let s :=
    if codec = "libx264" then
      let s :=
        if analysis.contentType = ContentType.gaming ∨
            analysis.contentType = ContentType.liveAction then
          mapSet (mapSet s "profile" "high") "level" "4.1"
        else mapSet (mapSet s "profile" "main") "level" "3.1"
      if analysis.contentType = ContentType.liveAction ∨
          analysis.contentType = ContentType.documentary then
        mapSet s "tune" "film"
      else s
    else s
  mapSet s "pix_fmt" "yuv420p"

/-- `calculateOptimalBitrateString`, second copy (lines 1182-1234): a
bitrate in Kbps rendered as a string with the suffix "k". -/
def calculateOptimalBitrateString (analysis : VideoAnalysis) (qualityLevel : Int) : String :=
  let width := analysis.videoFile.videoInfo.width
  let height := analysis.videoFile.videoInfo.height
  let pixelsPerFrame : ℚ := ((width * height : Int) : ℚ) / 1000000
  let baseBitrateFactor : ℚ :=
    match analysis.contentType with
    | ContentType.screencast => 1000
    | ContentType.animation => 1200
    | ContentType.gaming => 1800
    | ContentType.liveAction => 2000
    | ContentType.documentary => 2000
    | _ => 1500
  let baseBitrateFactor :=
    if analysis.motionComplexity = MotionComplexity.high then baseBitrateFactor * 1.5
    else if analysis.motionComplexity = MotionComplexity.low then baseBitrateFactor * 0.7
    else baseBitrateFactor
  let qualityMultiplier : ℚ := 0.6 + (qualityLevel : ℚ) * 0.2
  let bitrate : Int := goInt64 (pixelsPerFrame * baseBitrateFactor * qualityMultiplier)
  let minBitrate : Int :=
    if width ≥ 1920 ∨ height ≥ 1080 then 2000
    else if width ≥ 1280 ∨ height ≥ 720 then 1000
    else 500
  let bitrate := if bitrate < minBitrate then minBitrate else bitrate
  toString bitrate ++ "k"

/-- `setAudioSettings`, second copy (lines 1237-1258). -/
def setAudioSettings (s : Settings) (analysis : VideoAnalysis) : Settings :=
  match analysis.videoFile.audioInfo with
  | [] => s
  | a0 :: _ =>
    let s := mapSet s "audio_codec" "copy"
    if a0.bitRate > 128000 ∧
        (analysis.contentType = ContentType.screencast ∨
         analysis.contentType = ContentType.animation) then
      mapSet (mapSet s "audio_codec" "aac") "audio_bitrate" "128k"
    else if a0.bitRate > 192000 ∧
        (analysis.contentType = ContentType.liveAction ∨
         analysis.contentType = ContentType.documentary) then
      mapSet (mapSet s "audio_codec" "aac") "audio_bitrate" "192k"
    else s

/-- `GetCompressionSettings`, second copy (lines 1025-1055).  The nil-pointer
guard of the source is outside the model (the analysis is a value here). -/
def GetCompressionSettings_v2 (analysis : VideoAnalysis) (qualityLevel : Int) : Settings :=
  let s1 := mapSet [] "codec" (selectCodec analysis.contentType)
  let s2 := mapSet s1 "crf"
    (toString (calculateCRFNum_v2 analysis.contentType analysis.motionComplexity qualityLevel))
  let s3 := mapSet s2 "preset" (selectPreset_v2 qualityLevel analysis.motionComplexity)
  let s4 := addCodecSpecificSettings s3 analysis
  let optimalBitrateStr := calculateOptimalBitrateString analysis qualityLevel
  let s5 := if optimalBitrateStr ≠ "" then mapSet s4 "bitrate" optimalBitrateStr else s4
  setAudioSettings s5 analysis

/-! ## Analysis cache (part_011, package cache)

The SQLite store is modelled as a list of rows; `os.Stat`, the md5
fingerprint and the two JSON decoders are explicit function parameters
(they are external library calls).  A `dbFail` flag models a store I/O
failure of the `SELECT` (a `Scan` error other than `sql.ErrNoRows`). -/

/-- The result of `os.Stat` as used by `GetVideoFingerprint`: size and
modification time. -/
structure FileInfo where
  size : Int
  modTime : String
deriving DecidableEq, Repr

/-- One row of the `video_analysis` table, the columns `Get` touches. -/
structure CacheRow where
  id : String
  videoPath : String
  dateCached : ℚ
  analysisData : String
  videoInfoData : String
  valid : Bool

/-- The mutable state of `VideoAnalysisCache` that `Get` can observe or
change: the `Enabled` flag, `MaxAgeHours`, and the store contents. -/
structure CacheState where
  enabled : Bool
  maxAgeHours : Int
  rows : List CacheRow

/-- The error kinds `Get` can surface: a `Stat` failure inside
`GetVideoFingerprint`, a store I/O failure, or a `json.Unmarshal` failure. -/
inductive CacheErr
  | statErr
  | dbErr
  | decodeErr
deriving DecidableEq, Repr

/-- The four return values of `Get` plus the store state after the call. -/
structure GetResult where
  analysis : Option String
  video : Option String
  found : Bool
  error : Option CacheErr
  state : CacheState

/-- The `SELECT ... WHERE id = ? AND valid = TRUE` of `Get`
(part_011 lines 450-454). -/
def findValidRow (rows : List CacheRow) (fingerprint : String) : Option CacheRow :=
  rows.find? (fun r => r.id = fingerprint && r.valid)

/-- The `UPDATE video_analysis SET valid = FALSE WHERE id = ?` of `Get`
(part_011 line 472). -/
def invalidateRows (rows : List CacheRow) (fingerprint : String) : List CacheRow :=
  rows.map (fun r => if r.id = fingerprint then
    { id := r.id, videoPath := r.videoPath, dateCached := r.dateCached,
      analysisData := r.analysisData, videoInfoData := r.videoInfoData, valid := false }
  else r)

/-- `VideoAnalysisCache.Get` (part_011 lines 440-495).  `stat` models
`os.Stat`, `fingerprintOf` the md5 digest of path/size/mod-time,
`decodeAnalysis`/`decodeVideo` the two `json.Unmarshal` calls (`none` is a
failure), `dbFail` a `Scan` error other than `sql.ErrNoRows`, and `now` the
current time in hours, so that `time.Since(dateCached).Hours()` is
`now - row.dateCached`. -/
def cacheGet (stat : String → Option FileInfo) (fingerprintOf : String → FileInfo → String)
    (decodeAnalysis decodeVideo : String → Option String) (dbFail : Bool)
    (now : ℚ) (st : CacheState) (videoPath : String) : GetResult :=
  if !st.enabled then ⟨none, none, false, none, st⟩
  else
    match stat videoPath with
    | none => ⟨none, none, false, some CacheErr.statErr, st⟩
    | some fi =>
      if dbFail then ⟨none, none, false, some CacheErr.dbErr, st⟩
      else
        match findValidRow st.rows (fingerprintOf videoPath fi) with
        | none => ⟨none, none, false, none, st⟩
        | some row =>
          if now - row.dateCached > (st.maxAgeHours : ℚ) then
            ⟨none, none, false, none,
              ⟨st.enabled, st.maxAgeHours,
                invalidateRows st.rows (fingerprintOf videoPath fi)⟩⟩
          else
            match decodeAnalysis row.analysisData with
            | none => ⟨none, none, false, some CacheErr.decodeErr, st⟩
            | some a =>
              match decodeVideo row.videoInfoData with
              | none => ⟨none, none, false, some CacheErr.decodeErr, st⟩
              | some v => ⟨some a, some v, true, none, st⟩

/-! ## Helper lemmas -/

theorem lookup_mapSet_self (m : Settings) (k v : String) :
    (mapSet m k v).lookup k = some v := by
  induction m with
  | nil => simp [mapSet, List.lookup]
  | cons p rest ih =>
    obtain ⟨k', v'⟩ := p
    by_cases h : k' = k
    · subst h
      simp [mapSet, List.lookup]
    · have hb : (k == k') = false := beq_eq_false_iff_ne.mpr (Ne.symm h)
      simp [mapSet, h, List.lookup, hb, ih]

theorem lookup_mapSet_ne (m : Settings) (k k' v : String) (h : k' ≠ k) :
    (mapSet m k v).lookup k' = m.lookup k' := by
  induction m with
  | nil =>
    have hb : (k' == k) = false := beq_eq_false_iff_ne.mpr h
    simp [mapSet, List.lookup, hb]
  | cons p rest ih =>
    obtain ⟨k₀, v₀⟩ := p
    by_cases h₀ : k₀ = k
    · subst h₀
      have hb : (k' == k₀) = false := beq_eq_false_iff_ne.mpr h
      simp [mapSet, List.lookup, hb]
    · by_cases h₁ : k₀ = k'
      · subst h₁
        simp [mapSet, h₀, List.lookup]
      · have hb : (k' == k₀) = false := beq_eq_false_iff_ne.mpr (Ne.symm h₁)
        simp [mapSet, h₀, List.lookup, hb, ih]

theorem goInt64_bounds (lo hi : Int) (x : ℚ) (hlo : 0 ≤ lo) (h1 : (lo : ℚ) ≤ x)
    (h2 : x ≤ (hi : ℚ)) : lo ≤ goInt64 x ∧ goInt64 x ≤ hi := by
  have hx : (0 : ℚ) ≤ x := le_trans (by exact_mod_cast hlo) h1
  unfold goInt64
  rw [if_pos hx]
  refine ⟨Int.le_floor.mpr h1, ?_⟩
  have := Int.floor_le_floor h2
  simpa using this

theorem clampQuality_bounds (q : ℚ) :
    0 ≤ (if q < 0 then (0 : ℚ) else if q > 100 then 100 else q) ∧
      (if q < 0 then (0 : ℚ) else if q > 100 then 100 else q) ≤ 100 := by
  split_ifs <;> constructor <;> linarith

theorem frameQualityOf_bounds (codec : String) (crf : ℚ) :
    0 ≤ frameQualityOf codec crf ∧ frameQualityOf codec crf ≤ 100 := by
  unfold frameQualityOf
  exact clampQuality_bounds _

/-! ## Claim theorems -/

/-- C1: `CompressVideo` takes the parallel split/encode/merge path exactly
when the probed duration exceeds 60 seconds and the detected content type is
not Screencast, and the single-pass path otherwise. -/
theorem C1_strategy_selection (a : VideoAnalysis) :
    (chooseCompressionPath a = CompressionPath.parallel ↔
      (a.videoFile.duration > 60 ∧ a.contentType ≠ ContentType.screencast)) ∧
    (chooseCompressionPath a = CompressionPath.single ↔
      ¬(a.videoFile.duration > 60 ∧ a.contentType ≠ ContentType.screencast)) := by
  unfold chooseCompressionPath
  split_ifs with h <;> simp [h]

/-- The bitrate clamp of `calculateOptimalBitrate` keeps `goInt64` of the
result inside 500000..15000000. -/
theorem clampBitrate_key (a : ℚ) :
    500000 ≤ goInt64 (if a < 500000 then (500000 : ℚ)
        else if a > 15000000 then 15000000 else a) ∧
      goInt64 (if a < 500000 then (500000 : ℚ)
        else if a > 15000000 then 15000000 else a) ≤ 15000000 := by
  apply goInt64_bounds 500000 15000000 _ (by norm_num) <;>
    split_ifs with h1 h2 <;> push_cast <;> linarith

/-- C5: the optimal bitrate computed by `calculateOptimalBitrate` always
lies in the range 500000..15000000 bits per second, for every video file,
content type, motion complexity and recommended codec. -/
theorem C5_optimal_bitrate_bounds (vf : VideoFile) (ct : ContentType)
    (mc : MotionComplexity) (codec : String) :
    500000 ≤ calculateOptimalBitrate vf ct mc codec ∧
      calculateOptimalBitrate vf ct mc codec ≤ 15000000 := by
  unfold calculateOptimalBitrate
  exact clampBitrate_key _

/-- C9: packing a segment id below 2^16 and a percent in 0..100 as
`(id << 16) | percent` in `reportProgress` and unpacking in the aggregator
as `(v >> 16, v & 0xFFFF)` recovers the original pair. -/
theorem C9_segment_progress_roundtrip (id p : Nat) (_hid : id < 65536) (hp : p ≤ 100) :
    aggregatorSegmentID (reportProgressEncode id p) = id ∧
      aggregatorProgressValue (reportProgressEncode id p) = p := by
  have hp' : p < 2 ^ 16 := by omega
  constructor
  · unfold aggregatorSegmentID reportProgressEncode
    apply Nat.eq_of_testBit_eq
    intro i
    rw [Nat.testBit_shiftRight, Nat.testBit_lor, Nat.testBit_shiftLeft]
    have h2 : p.testBit (16 + i) = false :=
      Nat.testBit_lt_two_pow
        (lt_of_lt_of_le hp' (Nat.pow_le_pow_right (by norm_num) (by omega)))
    have h3 : (16 : Nat) ≤ 16 + i := by omega
    simp [h2, h3, Nat.add_sub_cancel_left]
  · unfold aggregatorProgressValue reportProgressEncode
    have h65535 : (65535 : Nat) = 2 ^ 16 - 1 := by norm_num
    rw [h65535, Nat.and_pow_two_sub_one_eq_mod]
    apply Nat.eq_of_testBit_eq
    intro i
    rw [Nat.testBit_mod_two_pow, Nat.testBit_lor, Nat.testBit_shiftLeft]
    by_cases h : i < 16
    · have h' : ¬ (16 ≤ i) := by omega
      simp [h, h']
    · have hbp : p.testBit i = false :=
        Nat.testBit_lt_two_pow
          (lt_of_lt_of_le hp' (Nat.pow_le_pow_right (by norm_num) (by omega)))
      simp [h, hbp]

/-- Witness for C9 at the concrete pair (3, 47). -/
theorem C9_segment_progress_roundtrip_witness :
    3 < 65536 ∧ 47 ≤ 100 ∧
      (aggregatorSegmentID (reportProgressEncode 3 47) = 3 ∧
        aggregatorProgressValue (reportProgressEncode 3 47) = 47) :=
  ⟨by decide, by decide, C9_segment_progress_roundtrip 3 47 (by decide) (by decide)⟩

/-- C10: `EstimateFrameQuality` always returns a value in 0..100; it
returns exactly 0 whenever the codec is none of libx264, libx265,
libvpx-vp9; and an absent or unparsable crf entry is treated as the
default CRF 23. -/
theorem C10_frame_quality_heuristic (parseFloat : String → Option ℚ) (settings : Settings) :
    (0 ≤ EstimateFrameQuality parseFloat settings ∧
      EstimateFrameQuality parseFloat settings ≤ 100) ∧
    (((settings.lookup "codec").getD "" ≠ "libx264" ∧
      (settings.lookup "codec").getD "" ≠ "libx265" ∧
      (settings.lookup "codec").getD "" ≠ "libvpx-vp9") →
        EstimateFrameQuality parseFloat settings = 0) ∧
    (settings.lookup "crf" = none →
      EstimateFrameQuality parseFloat settings =
        frameQualityOf ((settings.lookup "codec").getD "") 23) ∧
    (∀ s, settings.lookup "crf" = some s → parseFloat s = none →
      EstimateFrameQuality parseFloat settings =
        frameQualityOf ((settings.lookup "codec").getD "") 23) := by
  refine ⟨?_, ?_, ?_, ?_⟩
  · unfold EstimateFrameQuality
    exact frameQualityOf_bounds _ _
  · intro h
    obtain ⟨h1, h2, h3⟩ := h
    unfold EstimateFrameQuality frameQualityOf
    simp only [h1, h2, h3, if_false]
    norm_num
  · intro h
    simp [EstimateFrameQuality, h]
  · intro s hs hp
    simp [EstimateFrameQuality, hs, hp]

/-- Witness for C10: a map whose codec is unrecognized and whose crf entry
does not parse yields quality 0, and the default CRF 23 is used. -/
theorem C10_frame_quality_heuristic_witness :
    EstimateFrameQuality (fun _ => none) [("codec", "h264_nvenc"), ("crf", "oops")] = 0 := by
  have h := C10_frame_quality_heuristic (fun _ => none)
    [("codec", "h264_nvenc"), ("crf", "oops")]
  exact h.2.1 ⟨by simp, by simp, by simp⟩

/-- C3: `Get` on an expired valid entry flips the row's `valid` flag to
false, returns a miss without an error, and does not delete the row (the
store keeps the same number of rows and still contains the entry's id). -/
theorem C3_cache_expiry
    (stat : String → Option FileInfo) (fp : String → FileInfo → String)
    (dA dV : String → Option String) (now : ℚ) (st : CacheState)
    (path : String) (fi : FileInfo) (row : CacheRow)
    (hen : st.enabled = true)
    (hstat : stat path = some fi)
    (hrow : findValidRow st.rows (fp path fi) = some row)
    (hexp : now - row.dateCached > (st.maxAgeHours : ℚ)) :
    (cacheGet stat fp dA dV false now st path).found = false ∧
    (cacheGet stat fp dA dV false now st path).error = none ∧
    (cacheGet stat fp dA dV false now st path).analysis = none ∧
    (cacheGet stat fp dA dV false now st path).state.rows =
      invalidateRows st.rows (fp path fi) ∧
    (cacheGet stat fp dA dV false now st path).state.rows.length = st.rows.length ∧
    ∃ r' ∈ (cacheGet stat fp dA dV false now st path).state.rows,
      r'.id = fp path fi ∧ r'.valid = false := by
  have hres : cacheGet stat fp dA dV false now st path =
      ⟨none, none, false, none,
        ⟨st.enabled, st.maxAgeHours, invalidateRows st.rows (fp path fi)⟩⟩ := by
    unfold cacheGet
    rw [hen]
    simp [hstat, hrow, hexp]
  rw [hres]
  refine ⟨rfl, rfl, rfl, rfl, by simp [invalidateRows], ?_⟩
  have hrow' : st.rows.find? (fun r => r.id = fp path fi && r.valid) = some row := hrow
  have hmem : row ∈ st.rows := List.mem_of_find?_eq_some hrow'
  have hpred := List.find?_some hrow'
  simp only [Bool.and_eq_true, decide_eq_true_eq] at hpred
  have hid : row.id = fp path fi := hpred.1
  refine ⟨⟨row.id, row.videoPath, row.dateCached, row.analysisData,
    row.videoInfoData, false⟩, ?_, hid, rfl⟩
  simp only [invalidateRows]
  have hin := List.mem_map_of_mem (fun r => if r.id = fp path fi then
    ({ id := r.id, videoPath := r.videoPath, dateCached := r.dateCached,
       analysisData := r.analysisData, videoInfoData := r.videoInfoData,
       valid := false } : CacheRow) else r) hmem
  simpa [hid] using hin

/-- Witness for C3: a one-row store whose entry is older than the maximum
age; the call misses, reports no error, keeps the row, and clears its
flag. -/
theorem C3_cache_expiry_witness :
    (cacheGet (fun _ => some ⟨1, "t"⟩) (fun p _ => p) (fun s => some s) (fun s => some s)
        false 1 ⟨true, 0, [⟨"a.mp4", "a.mp4", 0, "A", "V", true⟩]⟩ "a.mp4").found = false ∧
    (cacheGet (fun _ => some ⟨1, "t"⟩) (fun p _ => p) (fun s => some s) (fun s => some s)
        false 1 ⟨true, 0, [⟨"a.mp4", "a.mp4", 0, "A", "V", true⟩]⟩ "a.mp4").error = none ∧
    (cacheGet (fun _ => some ⟨1, "t"⟩) (fun p _ => p) (fun s => some s) (fun s => some s)
        false 1 ⟨true, 0, [⟨"a.mp4", "a.mp4", 0, "A", "V", true⟩]⟩ "a.mp4").analysis = none ∧
    (cacheGet (fun _ => some ⟨1, "t"⟩) (fun p _ => p) (fun s => some s) (fun s => some s)
        false 1 ⟨true, 0, [⟨"a.mp4", "a.mp4", 0, "A", "V", true⟩]⟩ "a.mp4").state.rows =
      invalidateRows [⟨"a.mp4", "a.mp4", 0, "A", "V", true⟩] "a.mp4" ∧
    (cacheGet (fun _ => some ⟨1, "t"⟩) (fun p _ => p) (fun s => some s) (fun s => some s)
        false 1 ⟨true, 0, [⟨"a.mp4", "a.mp4", 0, "A", "V", true⟩]⟩
        "a.mp4").state.rows.length =
      ([⟨"a.mp4", "a.mp4", 0, "A", "V", true⟩] : List CacheRow).length ∧
    ∃ r' ∈ (cacheGet (fun _ => some ⟨1, "t"⟩) (fun p _ => p) (fun s => some s)
        (fun s => some s) false 1 ⟨true, 0, [⟨"a.mp4", "a.mp4", 0, "A", "V", true⟩]⟩
        "a.mp4").state.rows, r'.id = "a.mp4" ∧ r'.valid = false :=
  C3_cache_expiry (fun _ => some ⟨1, "t"⟩) (fun p _ => p) (fun s => some s) (fun s => some s)
    1 ⟨true, 0, [⟨"a.mp4", "a.mp4", 0, "A", "V", true⟩]⟩ "a.mp4" ⟨1, "t"⟩
    ⟨"a.mp4", "a.mp4", 0, "A", "V", true⟩ rfl rfl rfl (by simp)

/-- C8 (counterexample to the claim as stated): a `Stat` failure inside
`Get` produces a non-nil error for the caller, not a plain miss, so the
claim that failures return a miss rather than an error is false of the
code. -/
theorem C8_counterexample :
    (cacheGet (fun _ => none) (fun p _ => p) (fun s => some s) (fun s => some s)
        false 0 ⟨true, 0, []⟩ "video.mp4").error = some CacheErr.statErr ∧
    some CacheErr.statErr ≠ (none : Option CacheErr) := by
  exact ⟨rfl, by simp⟩

/-- C8 (amended): every failure inside `Get` (stat/fingerprint, store I/O,
or deserialization) is reported together with `found = false`, a nil
analysis and an unchanged store, so the caller that drops the error (as
`root.go` does, logging a warning) observes exactly a miss; conversely a
hit never carries an error. -/
theorem C8_get_failures_are_misses
    (stat : String → Option FileInfo) (fp : String → FileInfo → String)
    (dA dV : String → Option String) (dbFail : Bool) (now : ℚ) (st : CacheState)
    (path : String) :
    ((cacheGet stat fp dA dV dbFail now st path).error ≠ none →
      (cacheGet stat fp dA dV dbFail now st path).found = false ∧
      (cacheGet stat fp dA dV dbFail now st path).analysis = none ∧
      (cacheGet stat fp dA dV dbFail now st path).video = none ∧
      (cacheGet stat fp dA dV dbFail now st path).state = st) ∧
    ((cacheGet stat fp dA dV dbFail now st path).found = true →
      (cacheGet stat fp dA dV dbFail now st path).error = none) := by
  unfold cacheGet
  split
  · simp
  · split
    · simp
    · split
      · simp
      · split
        · simp
        · split
          · simp
          · split
            · simp
            · split
              · simp
              · simp

/-- Witness for C8: the stat-failure instance of the amended theorem. -/
theorem C8_get_failures_are_misses_witness :
    (cacheGet (fun _ => none) (fun p _ => p) (fun s => some s) (fun s => some s)
        false 0 ⟨true, 0, []⟩ "video.mp4").found = false ∧
    (cacheGet (fun _ => none) (fun p _ => p) (fun s => some s) (fun s => some s)
        false 0 ⟨true, 0, []⟩ "video.mp4").analysis = none ∧
    (cacheGet (fun _ => none) (fun p _ => p) (fun s => some s) (fun s => some s)
        false 0 ⟨true, 0, []⟩ "video.mp4").video = none ∧
    (cacheGet (fun _ => none) (fun p _ => p) (fun s => some s) (fun s => some s)
        false 0 ⟨true, 0, []⟩ "video.mp4").state = ⟨true, 0, []⟩ :=
  (C8_get_failures_are_misses (fun _ => none) (fun p _ => p) (fun s => some s)
    (fun s => some s) false 0 ⟨true, 0, []⟩ "video.mp4").1 (by decide)

theorem ffmpegPercent_le_100 (d : ℚ) (t : TimeToken) : ffmpegPercent d t ≤ 100 := by
  unfold ffmpegPercent
  split_ifs with h <;> omega

theorem executeReports_chain (d : ℚ) (ts : List TimeToken) :
    ∀ last : Int, last ≤ 100 →
      List.Chain' (· ≤ ·) (last :: executeReports d ts last) := by
  induction ts with
  | nil =>
    intro last _
    simp [executeReports]
  | cons t ts ih =>
    intro last hlast
    unfold executeReports
    split_ifs with hg hc
    · refine List.Chain'.cons ?_ (ih _ (ffmpegPercent_le_100 d t))
      have hp100 := ffmpegPercent_le_100 d t
      rcases hc with h | h <;> omega
    · exact ih last hlast
    · exact ih last hlast

theorem singleReports_chain (d : ℚ) (ts : List TimeToken) :
    ∀ last : Int, List.Chain' (· ≠ ·) (last :: singleReports d ts last) := by
  induction ts with
  | nil =>
    intro last
    simp [singleReports]
  | cons t ts ih =>
    intro last
    unfold singleReports
    split_ifs with hg hc
    · exact List.Chain'.cons (Ne.symm hc) (ih _)
    · exact ih last
    · exact ih last

/-- C2 (counterexample to the claim as stated): in `compressVideoSingle`
the sink is invoked whenever the percent merely differs from the last
reported value, so with total duration 100 and the token sequence
50 s then 30 s the delivered percents are 50 then 30: the second
invocation is neither strictly greater than the previous one nor equal
to 100, and the delivered sequence is not monotone. -/
theorem C2_counterexample :
    singleReports 100 [⟨0, 0, 50⟩, ⟨0, 0, 30⟩] 0 = [50, 30] ∧
      ¬ ((30 : Int) > 50 ∨ (30 : Int) = 100) ∧
      ¬ List.Chain' (· ≤ ·) ([50, 30] : List Int) := by
  refine ⟨?_, by norm_num, by simp [List.chain'_cons]⟩
  have h50 : ffmpegPercent 100 ⟨0, 0, 50⟩ = 50 := by
    unfold ffmpegPercent tokenSeconds goInt64
    norm_num
  have h30 : ffmpegPercent 100 ⟨0, 0, 30⟩ = 30 := by
    unfold ffmpegPercent tokenSeconds goInt64
    norm_num
  simp only [singleReports, h50, h30]
  norm_num

/-- C2 (amended): the throttles of `FFmpeg.Execute` and `compressSegment`
(report only when the percent strictly exceeds the last report or reaches
100) deliver a monotonically non-decreasing percent sequence; the throttle
of `compressVideoSingle` only guarantees that each delivered percent
differs from the previous one (starting from 0), not monotonicity. -/
theorem C2_progress_throttle (d : ℚ) (ts : List TimeToken) :
    List.Chain' (· ≤ ·) (executeReports d ts 0) ∧
      List.Chain' (· ≠ ·) ((0 : Int) :: singleReports d ts 0) := by
  constructor
  · have h := executeReports_chain d ts 0 (by norm_num)
    cases hE : executeReports d ts 0 with
    | nil => simp
    | cons a l =>
      rw [hE] at h
      exact (List.chain'_cons.mp h).2
  · exact singleReports_chain d ts 0

/-- C7 (counterexample to the claim as stated): with a CRF of 20 the
thorough preset leaves the CRF at 20, although decrementing by 2 would
still be at the claimed floor of 18: the source only decrements when the
current CRF is strictly greater than 20. -/
theorem C7_counterexample :
    (adjustSettingsForPreset 4 [("preset", "medium"), ("crf", "20")] "thorough").lookup "crf" =
      some "20" ∧ ("20" : String) ≠ "18" :=
  ⟨rfl, by decide⟩

/-- C7 (amended): adjusting with preset name thorough decrements the CRF by
exactly 2 when its parsed value is strictly greater than 20 and leaves it
unchanged otherwise (so the effective floor is 19, not 18), and adjusting
with preset name balanced leaves the settings map unchanged. -/
theorem C7_preset_adjustment (cw : Int) (settings : Settings) (crf : String)
    (h : settings.lookup "crf" = some crf) :
    ((adjustSettingsForPreset cw settings "thorough").lookup "crf" =
      if goAtoi crf > 20 then some (toString (goAtoi crf - 2)) else some crf) ∧
    adjustSettingsForPreset cw settings "balanced" = settings := by
  have hkey : ∀ v, (mapSet settings "preset" v).lookup "crf" = some crf := by
    intro v
    rw [lookup_mapSet_ne _ _ _ _ (by decide)]
    exact h
  have hthorough : ∀ s1 : Settings, s1.lookup "crf" = some crf →
      (adjustThoroughCRF s1).lookup "crf" =
        if goAtoi crf > 20 then some (toString (goAtoi crf - 2)) else some crf := by
    intro s1 hh
    unfold adjustThoroughCRF
    simp only [hh]
    split_ifs with hc
    · rw [lookup_mapSet_self]
    · exact hh
  constructor
  · have hne : ¬ (("thorough" : String) = "fast") := by decide
    unfold adjustSettingsForPreset
    rw [if_neg hne, if_pos rfl]
    apply hthorough
    split_ifs with h1 h2 <;> exact hkey _
  · have h1 : ¬ (("balanced" : String) = "fast") := by decide
    have h2 : ¬ (("balanced" : String) = "thorough") := by decide
    unfold adjustSettingsForPreset
    rw [if_neg h1, if_neg h2]

/-- Witness for C7 at the concrete map with CRF 23: thorough yields 21,
balanced is the identity. -/
theorem C7_preset_adjustment_witness :
    ((adjustSettingsForPreset 4 [("crf", "23")] "thorough").lookup "crf" =
      if goAtoi "23" > 20 then some (toString (goAtoi "23" - 2)) else some "23") ∧
    adjustSettingsForPreset 4 [("crf", "23")] "balanced" = [("crf", "23")] :=
  C7_preset_adjustment 4 [("crf", "23")] "23" rfl

theorem crfH264_v1_bounds (ct : ContentType) (q : Int) :
    18 ≤ crfH264_v1 ct q ∧ crfH264_v1 ct q ≤ 28 := by
  simp only [crfH264_v1]
  split_ifs <;> omega

theorem crfHevc_v1_bounds (ct : ContentType) (q : Int) :
    20 ≤ crfHevc_v1 ct q ∧ crfHevc_v1 ct q ≤ 32 := by
  simp only [crfHevc_v1]
  split_ifs <;> omega

theorem crfVp9_v1_bounds (q : Int) :
    15 ≤ crfVp9_v1 q ∧ crfVp9_v1 q ≤ 35 := by
  simp only [crfVp9_v1]
  split_ifs <;> omega

theorem calculateCRFNum_v2_bounds (ct : ContentType) (mc : MotionComplexity) (q : Int) :
    18 ≤ calculateCRFNum_v2 ct mc q ∧ calculateCRFNum_v2 ct mc q ≤ 32 := by
  cases ct <;> cases mc <;> simp only [calculateCRFNum_v2] <;> split_ifs <;> omega

theorem calculateCRFNum_v2_x265_lower (ct : ContentType) (mc : MotionComplexity)
    (q : Int) (h1 : 1 ≤ q) (h5 : q ≤ 5) (hc : selectCodec ct = "libx265") :
    20 ≤ calculateCRFNum_v2 ct mc q := by
  cases ct <;>
    first
      | exact absurd hc (by decide)
      | cases mc <;> simp only [calculateCRFNum_v2] <;> split_ifs <;> omega

theorem lookup_crf_commonTail (s : Settings) (a : VideoAnalysis) :
    (commonTail_v1 s a).lookup "crf" = s.lookup "crf" := by
  simp only [commonTail_v1]
  cases hA : a.videoFile.audioInfo with
  | nil => simp [lookup_mapSet_ne]
  | cons a0 rest =>
    dsimp only
    split_ifs <;> simp [lookup_mapSet_ne]

theorem lookup_setAudio_ne (s : Settings) (a : VideoAnalysis) (k : String)
    (h1 : k ≠ "audio_codec") (h2 : k ≠ "audio_bitrate") :
    (setAudioSettings s a).lookup k = s.lookup k := by
  simp only [setAudioSettings]
  cases hA : a.videoFile.audioInfo with
  | nil => rfl
  | cons a0 rest =>
    dsimp only
    split_ifs <;> simp [lookup_mapSet_ne, h1, h2]

theorem lookup_addCodec_ne (s : Settings) (a : VideoAnalysis) (k : String)
    (h1 : k ≠ "profile") (h2 : k ≠ "level") (h3 : k ≠ "tune")
    (h4 : k ≠ "x265-params") (h5 : k ≠ "pix_fmt") :
    (addCodecSpecificSettings s a).lookup k = s.lookup k := by
  simp only [addCodecSpecificSettings]
  split_ifs <;> simp [lookup_mapSet_ne, h1, h2, h3, h4, h5]

theorem calculateOptimalBitrateString_ne_empty (a : VideoAnalysis) (q : Int) :
    calculateOptimalBitrateString a q ≠ "" := by
  simp only [calculateOptimalBitrateString]
  intro hcontra
  have hlen := congrArg String.length hcontra
  rw [String.length_append] at hlen
  have hk : ("k" : String).length = 1 := rfl
  have h0 : ("" : String).length = 0 := rfl
  rw [hk, h0] at hlen
  omega

theorem lookup_crf_v2 (a : VideoAnalysis) (q : Int) :
    (GetCompressionSettings_v2 a q).lookup "crf" =
      some (toString (calculateCRFNum_v2 a.contentType a.motionComplexity q)) := by
  simp only [GetCompressionSettings_v2]
  rw [if_pos (calculateOptimalBitrateString_ne_empty a q)]
  rw [lookup_setAudio_ne _ _ _ (by decide) (by decide),
    lookup_mapSet_ne _ _ _ _ (by decide),
    lookup_addCodec_ne _ _ _ (by decide) (by decide) (by decide) (by decide) (by decide),
    lookup_mapSet_ne _ _ _ _ (by decide),
    lookup_mapSet_self]

theorem lookup_codec_v2 (a : VideoAnalysis) (q : Int) :
    (GetCompressionSettings_v2 a q).lookup "codec" = some (selectCodec a.contentType) := by
  simp only [GetCompressionSettings_v2]
  rw [if_pos (calculateOptimalBitrateString_ne_empty a q)]
  rw [lookup_setAudio_ne _ _ _ (by decide) (by decide),
    lookup_mapSet_ne _ _ _ _ (by decide),
    lookup_addCodec_ne _ _ _ (by decide) (by decide) (by decide) (by decide) (by decide),
    lookup_mapSet_ne _ _ _ _ (by decide),
    lookup_mapSet_ne _ _ _ _ (by decide),
    lookup_mapSet_self]

/-- A concrete analysis exercising the second copy of the analyzer:
gaming content with low motion complexity. -/
def analysisGamingLow : VideoAnalysis :=
  ⟨⟨"in.mp4", 120, ⟨"h264", 1280, 720, 30, 5000000, false⟩, []⟩,
    ContentType.gaming, MotionComplexity.low, "h264", 5000000, true, false⟩

/-- C4 (counterexample to the claim as stated): the second copy of
`GetCompressionSettings` selects the x264 encoder for gaming content but,
at low motion complexity and quality 1, stores CRF 29, outside the claimed
x264 range 18..28 (its `calculateCRF` clamps to 18..32 for every codec). -/
theorem C4_counterexample :
    (GetCompressionSettings_v2 analysisGamingLow 1).lookup "codec" = some "libx264" ∧
    (GetCompressionSettings_v2 analysisGamingLow 1).lookup "crf" = some "29" ∧
    ¬ ((29 : Int) ≤ 28) := by
  refine ⟨?_, ?_, by norm_num⟩
  · rw [lookup_codec_v2]
    rfl
  · rw [lookup_crf_v2]
    rfl

/-- C4 (amended): in the first copy of `GetCompressionSettings` the CRF is
clamped per encoder exactly as claimed (x264 18..28, x265 20..32, vp9
15..35); in the second copy `calculateCRF` clamps to 18..32 regardless of
codec, so the x264-family CRF can reach 29, while x265-family values do
lie in 20..32 for quality levels 1..5. -/
theorem C4_crf_bounds (a : VideoAnalysis) (q : Int) (h1 : 1 ≤ q) (h5 : q ≤ 5) :
    (a.recommendedCodec = "h264" →
      (GetCompressionSettings_v1 a q).lookup "crf" =
        some (toString (crfH264_v1 a.contentType q)) ∧
      18 ≤ crfH264_v1 a.contentType q ∧ crfH264_v1 a.contentType q ≤ 28) ∧
    (a.recommendedCodec = "hevc" →
      (GetCompressionSettings_v1 a q).lookup "crf" =
        some (toString (crfHevc_v1 a.contentType q)) ∧
      20 ≤ crfHevc_v1 a.contentType q ∧ crfHevc_v1 a.contentType q ≤ 32) ∧
    (a.recommendedCodec = "vp9" →
      (GetCompressionSettings_v1 a q).lookup "crf" =
        some (toString (crfVp9_v1 q)) ∧
      15 ≤ crfVp9_v1 q ∧ crfVp9_v1 q ≤ 35) ∧
    ((GetCompressionSettings_v2 a q).lookup "crf" =
        some (toString (calculateCRFNum_v2 a.contentType a.motionComplexity q)) ∧
      18 ≤ calculateCRFNum_v2 a.contentType a.motionComplexity q ∧
      calculateCRFNum_v2 a.contentType a.motionComplexity q ≤ 32 ∧
      (selectCodec a.contentType = "libx265" →
        20 ≤ calculateCRFNum_v2 a.contentType a.motionComplexity q)) := by
  have hpix : ∀ s' : Settings,
      (if a.videoFile.videoInfo.isHDR then mapSet s' "pix_fmt" "yuv420p10le" else s').lookup
        "crf" = s'.lookup "crf" := by
    intro s'
    split_ifs
    · rw [lookup_mapSet_ne _ _ _ _ (by decide)]
    · rfl
  refine ⟨?_, ?_, ?_, ?_⟩
  · intro hc
    refine ⟨?_, crfH264_v1_bounds a.contentType q⟩
    simp only [GetCompressionSettings_v1]
    rw [hc, if_pos rfl]
    rw [lookup_crf_commonTail, lookup_mapSet_ne _ _ _ _ (by decide),
      lookup_mapSet_ne _ _ _ _ (by decide), lookup_mapSet_ne _ _ _ _ (by decide),
      lookup_mapSet_self]
  · intro hc
    refine ⟨?_, crfHevc_v1_bounds a.contentType q⟩
    simp only [GetCompressionSettings_v1]
    rw [hc, if_neg (by decide), if_pos rfl]
    rw [lookup_crf_commonTail, hpix, lookup_mapSet_ne _ _ _ _ (by decide),
      lookup_mapSet_self]
  · intro hc
    refine ⟨?_, crfVp9_v1_bounds q⟩
    simp only [GetCompressionSettings_v1]
    rw [hc, if_neg (by decide), if_neg (by decide), if_pos rfl]
    rw [lookup_crf_commonTail, hpix, lookup_mapSet_ne _ _ _ _ (by decide),
      lookup_mapSet_ne _ _ _ _ (by decide), lookup_mapSet_ne _ _ _ _ (by decide),
      lookup_mapSet_self]
  · obtain ⟨hb1, hb2⟩ := calculateCRFNum_v2_bounds a.contentType a.motionComplexity q
    exact ⟨lookup_crf_v2 a q, hb1, hb2,
      calculateCRFNum_v2_x265_lower a.contentType a.motionComplexity q h1 h5⟩

/-- Witness for C4 at the gaming/low-motion analysis and quality 1: the
first copy stores the h264 CRF (within 18..28), the second stores CRF 29
(within 18..32). -/
theorem C4_crf_bounds_witness :
    ((GetCompressionSettings_v1 analysisGamingLow 1).lookup "crf" =
      some (toString (crfH264_v1 analysisGamingLow.contentType 1)) ∧
    18 ≤ crfH264_v1 analysisGamingLow.contentType 1 ∧
      crfH264_v1 analysisGamingLow.contentType 1 ≤ 28) ∧
    ((GetCompressionSettings_v2 analysisGamingLow 1).lookup "crf" =
        some (toString (calculateCRFNum_v2 analysisGamingLow.contentType
          analysisGamingLow.motionComplexity 1)) ∧
      18 ≤ calculateCRFNum_v2 analysisGamingLow.contentType
        analysisGamingLow.motionComplexity 1 ∧
      calculateCRFNum_v2 analysisGamingLow.contentType
        analysisGamingLow.motionComplexity 1 ≤ 32 ∧
      (selectCodec analysisGamingLow.contentType = "libx265" →
        20 ≤ calculateCRFNum_v2 analysisGamingLow.contentType
          analysisGamingLow.motionComplexity 1)) :=
  ⟨(C4_crf_bounds analysisGamingLow 1 (by decide) (by decide)).1 rfl,
    (C4_crf_bounds analysisGamingLow 1 (by decide) (by decide)).2.2.2⟩

/-- A video file with a known 100 kbps source bitrate. -/
def vfKnownBitrate : VideoFile :=
  ⟨"a.mp4", 60, ⟨"h264", 1920, 1080, 30, 100000, false⟩, []⟩

/-- A video file with an unknown source bitrate. -/
def vfUnknownBitrate : VideoFile :=
  ⟨"b.mp4", 60, ⟨"h264", 1920, 1080, 30, 0, false⟩, []⟩

/-- C6 (counterexample to the claim as stated): with source bitrate
100000 and optimal 7000 the savings are exactly 93 percent; the claim
(round, clamp to 0..95) predicts 93, but the first copy of
`estimateCompressionPotential` caps at 90 and returns 90. -/
theorem C6_counterexample :
    estimateCompressionPotential_v1 vfKnownBitrate ContentType.liveAction 7000 = 90 ∧
    estimateCompressionPotential_claim vfKnownBitrate ContentType.liveAction 7000 = 93 ∧
    (90 : Int) ≠ 93 := by
  refine ⟨?_, ?_, by norm_num⟩
  · simp only [estimateCompressionPotential_v1, vfKnownBitrate]
    norm_num
  · simp only [estimateCompressionPotential_claim, vfKnownBitrate]
    norm_num [round_eq]

/-- C6 (amended): with unknown source bitrate the first copy returns the
static per-content estimate (Screencast 80, Animation 70, Gaming 50,
SportsAction 40, else 50) while the second copy keys on the resolution
class (UHD 50, HD 60, else 65); with known source bitrate the first copy
returns the truncated savings `(1 - optimal/source) * 100` with values
below 0 mapped to 10 and values above 90 capped at 90 (not 95), and the
second copy's result is clamped to 0..95. -/
theorem C6_compression_potential (vf : VideoFile) (ct : ContentType) (ob : Int)
    (isUHD isHD : Bool) :
    (vf.videoInfo.bitRate ≤ 0 →
      estimateCompressionPotential_v1 vf ct ob =
        (if ct = ContentType.screencast then 80
         else if ct = ContentType.animation then 70
         else if ct = ContentType.gaming then 50
         else if ct = ContentType.sportsAction then 40 else 50) ∧
      estimateCompressionPotential_v2 vf isUHD isHD ob =
        (if isUHD then 50 else if isHD then 60 else 65)) ∧
    (0 < vf.videoInfo.bitRate →
      estimateCompressionPotential_v1 vf ct ob =
        (if (1 - (ob : ℚ) / (vf.videoInfo.bitRate : ℚ)) * 100 < 0 then 10
         else if (1 - (ob : ℚ) / (vf.videoInfo.bitRate : ℚ)) * 100 > 90 then 90
         else goInt64 ((1 - (ob : ℚ) / (vf.videoInfo.bitRate : ℚ)) * 100)) ∧
      0 ≤ estimateCompressionPotential_v2 vf isUHD isHD ob ∧
      estimateCompressionPotential_v2 vf isUHD isHD ob ≤ 95) := by
  constructor
  · intro h
    constructor
    · simp only [estimateCompressionPotential_v1]
      rw [if_pos h]
      cases ct <;> rfl
    · simp only [estimateCompressionPotential_v2]
      rw [if_pos h]
  · intro h
    refine ⟨?_, ?_⟩
    · simp only [estimateCompressionPotential_v1]
      rw [if_neg (not_le.mpr h)]
      simp only [one_div_div]
    · simp only [estimateCompressionPotential_v2]
      rw [if_neg (not_le.mpr h)]
      split_ifs <;> omega

/-- Witness for C6: a screencast with unknown bitrate yields the static
estimates of both copies. -/
theorem C6_compression_potential_witness :
    estimateCompressionPotential_v1 vfUnknownBitrate ContentType.screencast 800000 =
      (if ContentType.screencast = ContentType.screencast then 80
       else if ContentType.screencast = ContentType.animation then 70
       else if ContentType.screencast = ContentType.gaming then 50
       else if ContentType.screencast = ContentType.sportsAction then 40 else 50) ∧
    estimateCompressionPotential_v2 vfUnknownBitrate true false 800000 =
      (if true then 50 else if false then 60 else 65) :=
  (C6_compression_potential vfUnknownBitrate ContentType.screencast 800000 true false).1
    (by decide)

end CompressVideo
